import Mathlib

/-!
Shallow embedding of the fs-id crate (src/lib.rs, src/unix.rs, src/windows.rs,
src/wasi.rs, src/wasm.rs): a file-identity value and the per-platform
identity-extraction backends, with the comparison entry point.
-/

namespace FsId

/-- An OS error code (errno / GetLastError), as carried by io::Error. -/
abbrev OSError := Nat

/-- A native file handle / file descriptor. -/
abbrev Handle := Nat

/-- lib.rs line 16: pub struct FileID (sys::FileIDImpl). FileIDImpl is
(u64, u64) on Unix/WASI and (u64, u128) on Windows; both components are
modelled as Nat (unsigned values, in range of their machine width). -/
structure FileID where
  storage : Nat
  internal : Nat
deriving DecidableEq

/-- The derived PartialEq of FileID: structural comparison of the wrapped
pair, component by component. -/
def fileIDBeq (a b : FileID) : Bool :=
  a.storage == b.storage && a.internal == b.internal

/-- lib.rs FileID::storage_id: returns self.0.0. -/
def FileID.storage_id (f : FileID) : Nat :=
  f.storage

/-- lib.rs FileID::internal_file_id: returns self.0.1 as u128. The cast from
u64 (Unix/WASI) or u128 (Windows) to u128 is value-preserving (zero-extension),
so on Nat components it is the identity. -/
def FileID.internal_file_id (f : FileID) : Nat :=
  f.internal

/-- unix.rs get_id: calls libc::fstat64(fd, &mut buf); if the return code is 0
it yields Ok(FileID((buf.st_dev, buf.st_ino))), otherwise
Err(io::Error::last_os_error()). The syscall outcome is passed in as the
return code, the stat fields and the current last-OS-error. -/
def unix_get_id (ret : Int) (st_dev st_ino : Nat) (lastError : OSError) :
    Except OSError FileID :=
  if ret == 0 then .ok ⟨st_dev, st_ino⟩ else .error lastError

/-- wasi.rs get_id: calls fd_filestat_get(fd, &mut filestat); if the return
code is 0 it yields Ok(FileID((filestat.dev, filestat.ino))), otherwise
Err(io::Error::last_os_error()). -/
def wasi_get_id (ret : Int) (dev ino : Nat) (lastError : OSError) :
    Except OSError FileID :=
  if ret == 0 then .ok ⟨dev, ino⟩ else .error lastError

/-- Outcome of running a Rust function that may also panic (todo! aborts). -/
inductive RunResult (α : Type) where
  | ok : α → RunResult α
  | err : OSError → RunResult α
  | panicked : RunResult α
deriving DecidableEq

/-- wasm.rs get_id: matches on the return code of fd_filestat_get; code 0
yields Ok(FileID((filestat.dev, filestat.ino))); every other code runs
todo!(), which panics. -/
def wasm_get_id (ret : Int) (dev ino : Nat) : RunResult FileID :=
  match ret with
  | 0 => .ok ⟨dev, ino⟩
  | _ => .panicked

/-- Host byte order, deciding what u128::from_ne_bytes means on the target. -/
inductive Endian where
  | little
  | big
deriving DecidableEq

/-- Little-endian interpretation of a byte sequence (first byte is least
significant), as u128::from_le_bytes does. -/
def fromLeBytes : List Nat → Nat
  | [] => 0
  | b :: bs => b + 256 * fromLeBytes bs

/-- Big-endian interpretation of a byte sequence (first byte is most
significant), as u128::from_be_bytes does. -/
def fromBeBytes (bs : List Nat) : Nat :=
  fromLeBytes bs.reverse

/-- u128::from_ne_bytes: native-endian interpretation, i.e. the little- or
big-endian one depending on the host byte order. -/
def from_ne_bytes (e : Endian) (bs : List Nat) : Nat :=
  match e with
  | .little => fromLeBytes bs
  | .big => fromBeBytes bs

/-- windows.rs get_id: calls GetFileInformationByHandleEx(handle, FileIdInfo,
&mut info, size); a return code of 0 means failure and yields
Err(io::Error::last_os_error()); otherwise it yields
Ok(FileID((info.VolumeSerialNumber, u128::from_ne_bytes(info.FileId.Identifier)))).
The host byte order parametrises from_ne_bytes. -/
def windows_get_id (ret : Int) (volumeSerialNumber : Nat) (fileIdBytes : List Nat)
    (host : Endian) (lastError : OSError) : Except OSError FileID :=
  if ret == 0 then .error lastError
  else .ok ⟨volumeSerialNumber, from_ne_bytes host fileIdBytes⟩

/-- lib.rs impl GetID for FileID: fn get_id(&self) returns
Ok(self.to_owned()) — a copy of the value, no syscall, no failure path. -/
def fileID_get_id (i : FileID) : Except OSError FileID :=
  .ok i

/-- The backend get_id applied to an already-open handle: one metadata query
on that handle (unix.rs / wasi.rs / windows.rs, abstracted as the stat
oracle mapping each handle to the OS's answer for it). -/
def handle_get_id (stat : Handle → Except OSError FileID) (h : Handle) :
    Except OSError FileID :=
  stat h

/-- The OS open-file table visible to this process: the open handles. -/
abbrev FileTable := List Handle

/-- File::open: on success the OS allocates a handle and adds it to the open
table; on failure the table is unchanged. openRes is the OS's answer. -/
def open_file (openRes : Except OSError Handle) (st : FileTable) :
    Except OSError Handle × FileTable :=
  match openRes with
  | .error e => (.error e, st)
  | .ok h => (.ok h, h :: st)

/-- Dropping a std::fs::File closes its handle (RAII): the handle leaves the
open table. -/
def close_file (h : Handle) (st : FileTable) : FileTable :=
  st.erase h

/-- lib.rs lines 132-144 impl_get_id for Path / str / OsStr:
File::open(self)?.get_id(). On open failure the question-mark operator
returns the error before any File exists; on open success the temporary File
is dropped (closed) at the end of the expression, on the success and the
failure path of the metadata query alike. The open-file table is threaded
explicitly. -/
def path_get_id (openRes : Except OSError Handle)
    (stat : Handle → Except OSError FileID) (st : FileTable) :
    Except OSError FileID × FileTable :=
  match open_file openRes st with
  | (.error e, st1) => (.error e, st1)
  | (.ok h, st1) => (handle_get_id stat h, close_file h st1)

/-- lib.rs lines 167-169 compare_ids: Ok(id1.get_id()? == id2.get_id()?).
The two sides are passed in as the results of the respective get_id calls;
the question-mark on the left side runs first. -/
def compare_ids (q1 q2 : Except OSError FileID) : Except OSError Bool :=
  match q1 with
  | .error e => .error e
  | .ok i1 =>
    match q2 with
    | .error e => .error e
    | .ok i2 => .ok (fileIDBeq i1 i2)

/-- compare_ids with its evaluation order made observable: the boolean
records whether the right-hand get_id call was reached. The left side is
evaluated first; when it fails the right side is never evaluated. -/
def compare_ids_trace (q1 : Except OSError FileID)
    (q2 : Unit → Except OSError FileID) : Except OSError Bool × Bool :=
  match q1 with
  | .error e => (.error e, false)
  | .ok i1 =>
    match q2 () with
    | .error e => (.error e, true)
    | .ok i2 => (.ok (fileIDBeq i1 i2), true)

/-- The concrete 16-byte FILE_ID_INFO.FileId.Identifier used as an input in
the endianness counterexample: one set bit in the first byte. -/
def exampleFileIdBytes : List Nat :=
  [1, 0, 0, 0, 0, 0, 0, 0, 0, 0, 0, 0, 0, 0, 0, 0]

end FsId

namespace FsId

/-- fileIDBeq decides propositional equality of FileID values. -/
theorem fileIDBeq_eq_true_iff (a b : FileID) : fileIDBeq a b = true ↔ a = b := by
  cases a
  cases b
  simp [fileIDBeq, FileID.mk.injEq]

/-- fileIDBeq is symmetric. -/
theorem fileIDBeq_comm (a b : FileID) : fileIDBeq a b = fileIDBeq b a := by
  rw [Bool.eq_iff_iff, fileIDBeq_eq_true_iff, fileIDBeq_eq_true_iff]
  exact eq_comm

/-- The traced compare_ids computes the same result as compare_ids. -/
theorem compare_ids_trace_fst (q1 : Except OSError FileID)
    (q2 : Unit → Except OSError FileID) :
    (compare_ids_trace q1 q2).1 = compare_ids q1 (q2 ()) := by
  cases q1
  · rfl
  · cases h : q2 () <;> simp [compare_ids_trace, compare_ids, h]

/-- C1: the equality comparison of two FileID values (the derived PartialEq)
returns true if and only if both components — the storage id and the internal
id — are equal; equality over the pair is structural. -/
theorem fileID_eq_iff_components (a b : FileID) :
    fileIDBeq a b = true ↔ a.storage = b.storage ∧ a.internal = b.internal := by
  cases a
  cases b
  simp [fileIDBeq]

/-- C2: when both sides of compare_ids extract an identity successfully, the
result is Ok true exactly when the two extracted FileID values are equal, and
Ok false otherwise. -/
theorem compare_ids_ok_iff (q1 q2 : Except OSError FileID) (i1 i2 : FileID)
    (h1 : q1 = .ok i1) (h2 : q2 = .ok i2) :
    (compare_ids q1 q2 = .ok true ↔ i1 = i2) ∧
      (compare_ids q1 q2 = .ok false ↔ i1 ≠ i2) := by
  subst h1
  subst h2
  have hb := fileIDBeq_eq_true_iff i1 i2
  constructor
  · simp [compare_ids, hb]
  · simp only [compare_ids, Except.ok.injEq]
    rw [Bool.eq_false_iff]
    exact not_congr hb

/-- Witness for C2 at a concrete input. -/
theorem compare_ids_ok_iff_w :
    (compare_ids (.ok ⟨1, 2⟩) (.ok ⟨1, 2⟩) = .ok true ↔
        (⟨1, 2⟩ : FileID) = ⟨1, 2⟩) ∧
      (compare_ids (.ok ⟨1, 2⟩) (.ok ⟨1, 2⟩) = .ok false ↔
        (⟨1, 2⟩ : FileID) ≠ ⟨1, 2⟩) :=
  compare_ids_ok_iff _ _ _ _ rfl rfl

/-- C3: the claim says every backend, the wasm/WASI one included, surfaces
the OS error as Err when the metadata query fails; evaluating wasm.rs get_id
at a failing query (fd_filestat_get returning the nonzero code 8) shows it
instead runs todo!() and panics, returning no Err at all. -/
theorem wasm_get_id_panics_on_failure : wasm_get_id 8 0 0 = RunResult.panicked :=
  rfl

/-- C4: compare_ids evaluates the left side first; if the left identity
extraction fails with error e, the result is Err e and the right-hand get_id
call is never evaluated. -/
theorem compare_ids_short_circuit (q1 : Except OSError FileID)
    (q2 : Unit → Except OSError FileID) (e : OSError) (h : q1 = .error e) :
    compare_ids_trace q1 q2 = (.error e, false) := by
  subst h
  rfl

/-- Witness for C4 at a concrete input. -/
theorem compare_ids_short_circuit_w :
    compare_ids_trace (.error 2) (fun _ => .ok ⟨1, 2⟩) = (.error 2, false) :=
  compare_ids_short_circuit _ _ 2 rfl

/-- C5: when opening the path succeeds and both metadata queries succeed
against the same underlying object (the stat oracle answers both handles
with the same identity), the identity obtained from the path equals the
identity obtained from an already-open handle for that path. -/
theorem path_handle_equiv (openRes : Except OSError Handle)
    (stat : Handle → Except OSError FileID) (st : FileTable)
    (h h2 : Handle) (i : FileID) (ho : openRes = .ok h)
    (hs : stat h = .ok i) (hs2 : stat h2 = .ok i) :
    (path_get_id openRes stat st).1 = handle_get_id stat h2 := by
  subst ho
  simp [path_get_id, open_file, handle_get_id, hs, hs2]

/-- Witness for C5 at a concrete input. -/
theorem path_handle_equiv_w :
    (path_get_id (.ok 3) (fun _ => .ok ⟨1, 2⟩) []).1 =
      handle_get_id (fun _ => .ok ⟨1, 2⟩) 5 :=
  path_handle_equiv _ _ _ 3 5 ⟨1, 2⟩ rfl rfl rfl

/-- C6: on POSIX and WASI a successful query packs the 64-bit inode into the
internal id, and internal_file_id returns it zero-extended to 128 bits: the
result is below 2 to the 64 (high 64 bits zero) and its low 64 bits are the
native inode value. -/
theorem internal_id_zero_extended (dev ino e : Nat) (hino : ino < 2 ^ 64) :
    (unix_get_id 0 dev ino e = .ok ⟨dev, ino⟩ ∧
        (FileID.mk dev ino).internal_file_id < 2 ^ 64 ∧
        (FileID.mk dev ino).internal_file_id % 2 ^ 64 = ino) ∧
      (wasi_get_id 0 dev ino e = .ok ⟨dev, ino⟩ ∧
        (FileID.mk dev ino).internal_file_id < 2 ^ 64 ∧
        (FileID.mk dev ino).internal_file_id % 2 ^ 64 = ino) :=
  ⟨⟨rfl, hino, Nat.mod_eq_of_lt hino⟩, rfl, hino, Nat.mod_eq_of_lt hino⟩

/-- Witness for C6 at a concrete input. -/
theorem internal_id_zero_extended_w :
    (unix_get_id 0 1 2 0 = .ok ⟨1, 2⟩ ∧
        (FileID.mk 1 2).internal_file_id < 2 ^ 64 ∧
        (FileID.mk 1 2).internal_file_id % 2 ^ 64 = 2) ∧
      (wasi_get_id 0 1 2 0 = .ok ⟨1, 2⟩ ∧
        (FileID.mk 1 2).internal_file_id < 2 ^ 64 ∧
        (FileID.mk 1 2).internal_file_id % 2 ^ 64 = 2) :=
  internal_id_zero_extended 1 2 0 (by norm_num)

/-- C7 counterexample: the Windows backend converts the 16 file-id bytes with
u128::from_ne_bytes, so on the same byte sequence a little-endian and a
big-endian host obtain different identities — the conversion is not of a
fixed endianness independent of host byte order. -/
theorem windows_ne_bytes_host_dependent :
    windows_get_id 1 0 exampleFileIdBytes Endian.little 0 ≠
      windows_get_id 1 0 exampleFileIdBytes Endian.big 0 := by
  simp [windows_get_id, from_ne_bytes, fromLeBytes, fromBeBytes, exampleFileIdBytes]

/-- C7 amended: on a successful query the Windows backend takes the volume
serial number as storage id and interprets the 128-bit file-id bytes in the
host's native byte order; on little-endian hosts (every supported Windows
target) this is the little-endian interpretation of the byte sequence. -/
theorem windows_get_id_native_endian (ret : Int) (vs : Nat) (bs : List Nat)
    (host : Endian) (e : OSError) (hret : ret ≠ 0) :
    windows_get_id ret vs bs host e = .ok ⟨vs, from_ne_bytes host bs⟩ ∧
      from_ne_bytes Endian.little bs = fromLeBytes bs := by
  have hbeq : (ret == 0) = false := by simpa using hret
  exact ⟨by simp [windows_get_id, hbeq], rfl⟩

/-- Witness for the amended C7 at a concrete input. -/
theorem windows_get_id_native_endian_w :
    windows_get_id 1 7 exampleFileIdBytes Endian.big 0 =
        .ok ⟨7, from_ne_bytes Endian.big exampleFileIdBytes⟩ ∧
      from_ne_bytes Endian.little exampleFileIdBytes =
        fromLeBytes exampleFileIdBytes :=
  windows_get_id_native_endian 1 7 exampleFileIdBytes Endian.big 0 (by decide)

/-- C8 counterexample: when both sides fail with different OS errors, the
comparison entry point is not symmetric — each direction propagates a
different error. -/
theorem compare_ids_not_symmetric :
    compare_ids (.error 1) (.error 2) ≠ compare_ids (.error 2) (.error 1) := by
  simp [compare_ids]

/-- C8 amended: whenever both identity extractions succeed, the comparison
entry point is symmetric: compare_ids on (a, b) equals compare_ids on
(b, a). -/
theorem compare_ids_symmetric_on_ok (q1 q2 : Except OSError FileID)
    (i1 i2 : FileID) (h1 : q1 = .ok i1) (h2 : q2 = .ok i2) :
    compare_ids q1 q2 = compare_ids q2 q1 := by
  subst h1
  subst h2
  simp [compare_ids, fileIDBeq_comm i1 i2]

/-- Witness for the amended C8 at a concrete input. -/
theorem compare_ids_symmetric_on_ok_w :
    compare_ids (.ok ⟨1, 2⟩) (.ok ⟨3, 4⟩) = compare_ids (.ok ⟨3, 4⟩) (.ok ⟨1, 2⟩) :=
  compare_ids_symmetric_on_ok _ _ ⟨1, 2⟩ ⟨3, 4⟩ rfl rfl

/-- C9: a path-like get_id opens a transient handle, queries identity on that
handle, and closes it before returning on every exit path (open failure,
query failure, success): the open-file table after the call equals the table
before it, and the result is the open error or the queried identity. -/
theorem path_get_id_frame (openRes : Except OSError Handle)
    (stat : Handle → Except OSError FileID) (st : FileTable) :
    (path_get_id openRes stat st).2 = st ∧
      (path_get_id openRes stat st).1 =
        (match openRes with
          | .error e => .error e
          | .ok h => stat h) := by
  cases openRes
  · exact ⟨rfl, rfl⟩
  · exact ⟨by simp [path_get_id, open_file, close_file], rfl⟩

/-- C10: FileID itself implements the identity-provider capability; get_id
on a FileID is pure (no syscall oracle in its definition), never fails, and
returns Ok of an identical copy, so FileID::new and compare_ids applied to
already-extracted identities just reproduce and compare them. -/
theorem fileID_get_id_identity (i a b : FileID) :
    fileID_get_id i = .ok i ∧
      compare_ids (fileID_get_id a) (fileID_get_id b) = .ok (fileIDBeq a b) :=
  ⟨rfl, rfl⟩

end FsId
